import Mathlib

/-!
Verification of the core simulation of the Potalip side-scrolling vehicle game
(`src/components/GameCanvas.tsx`, `src/types.ts`) against its specification.

The embedding uses exact rationals for the JavaScript numbers.  `Math.hypot`
is not rational-valued, so it is kept as an abstract function field of the
constants record; every concrete evaluation below only queries it on
axis-aligned inputs (one component zero), where the chosen instantiation
`l1norm` coincides with the Euclidean norm, so all concrete traces agree with
the floating-point program's control flow.

The `PHYSICS` and `GAME_CONFIG` constant records are imported by the source
from `../constants`, a file that is not part of the given sources; following
the spec they are kept abstract as fields of `Consts` (spec-modelled).
-/

/-- Game status enumeration, from `src/types.ts` (`GameStatus`). -/
inductive GameStatus where
  | MENU
  | PLAYING
  | WON
  | DEAD
deriving DecidableEq, Repr

/-- A Verlet mass point, from `src/types.ts` (`Point`). -/
structure Point where
  x : ℚ
  y : ℚ
  oldx : ℚ
  oldy : ℚ
  mass : ℚ
  radius : ℚ
  isWheel : Bool
  pinned : Bool
  rotation : ℚ
deriving DecidableEq, Repr

/-- Identifier of one of the five vehicle points.  The JavaScript code keeps
the five points both in the array `state.points` (in the order rw, fw, body,
handle, head) and as the named aggregate `state.bike`; sticks alias them by
object identity, which the embedding renders as these identifiers. -/
inductive PId where
  | rw
  | fw
  | body
  | handle
  | head
deriving DecidableEq, Repr

/-- The vehicle: exactly five named points, from `src/types.ts` (`Bike`). -/
structure Bike where
  rw : Point
  fw : Point
  body : Point
  handle : Point
  head : Point
deriving DecidableEq, Repr

/-- Read a vehicle point by identifier. -/
def Bike.get (b : Bike) : PId → Point
  | .rw => b.rw
  | .fw => b.fw
  | .body => b.body
  | .handle => b.handle
  | .head => b.head

/-- Replace a vehicle point by identifier. -/
def Bike.set (b : Bike) : PId → Point → Bike
  | .rw, p => { b with rw := p }
  | .fw, p => { b with fw := p }
  | .body, p => { b with body := p }
  | .handle, p => { b with handle := p }
  | .head, p => { b with head := p }

/-- A distance constraint between two vehicle points, from `src/types.ts`
(`Stick`): endpoints by identity, rest length, stiffness, render hints. -/
structure Stick where
  p1 : PId
  p2 : PId
  length : ℚ
  stiffness : ℚ
  visible : Bool
  width : ℚ
deriving DecidableEq, Repr

/-- An apple or killer, from `src/types.ts` (`Entity`). -/
structure Entity where
  x : ℚ
  y : ℚ
  r : Option ℚ
  collected : Bool
deriving DecidableEq, Repr

/-- The goal flower, from the `flower` field of `stateRef` in
`GameCanvas.tsx`. -/
structure Flower where
  x : ℚ
  y : ℚ
  unlocked : Bool
deriving DecidableEq, Repr

/-- The six input flags, from `src/types.ts` (`InputState`). -/
structure InputState where
  up : Bool
  down : Bool
  left : Bool
  right : Bool
  space : Bool
  enter : Bool
deriving DecidableEq, Repr

/-- The simulation context, from the `stateRef` record in `GameCanvas.tsx`
(the camera and the UI mirror are rendering-boundary state with no effect on
the simulation and are omitted). -/
structure GameState where
  bike : Bike
  sticks : List Stick
  terrain : List (ℚ × ℚ)
  apples : List Entity
  killers : List Entity
  flower : Flower
  keys : InputState
  status : GameStatus
deriving DecidableEq, Repr

/-- Modelled from the spec: the numeric constants live in `../constants`
(`PHYSICS`, `GAME_CONFIG`), which is not among the given source files, so they
are abstract fields here; `hypot` stands for `Math.hypot`, which is not
rational-valued and is therefore also kept abstract.  Field names follow the
source's uses (`PHYSICS.WHEEL_SPEED` etc.). -/
structure Consts where
  hypot : ℚ → ℚ → ℚ
  WHEEL_SPEED : ℚ
  BIKE_TORQUE : ℚ
  FRICTION : ℚ
  GRAVITY : ℚ
  GROUND_FRICTION : ℚ
  SUSPENSION_STIFFNESS : ℚ
  RIGID_STIFFNESS : ℚ
  ITERATIONS : ℕ
  TERRAIN_SEGMENTS : ℕ

/-- The taxicab norm: a concrete total stand-in for `Math.hypot` used in
closed evaluations.  It agrees exactly with the Euclidean norm whenever one
argument is zero; every concrete state below is chosen so that the simulation
only queries it on such axis-aligned inputs, or on inputs where both norms
decide the comparison the same way. -/
def l1norm (a b : ℚ) : ℚ := |a| + |b|

-- --- State machine (`die`, `win` in GameCanvas.tsx, lines 347-359) ---

/-- `die()` on the status value: only a PLAYING status becomes DEAD. -/
def dieStatus (st : GameStatus) : GameStatus :=
  if st = .PLAYING then .DEAD else st

/-- `win()` on the status value: only a PLAYING status becomes WON. -/
def winStatus (st : GameStatus) : GameStatus :=
  if st = .PLAYING then .WON else st

/-- `die()` from GameCanvas.tsx lines 347-352. -/
def dieS (s : GameState) : GameState :=
  if s.status = .PLAYING then { s with status := .DEAD } else s

/-- `win()` from GameCanvas.tsx lines 354-359. -/
def winS (s : GameState) : GameState :=
  if s.status = .PLAYING then { s with status := .WON } else s

-- --- Controls and Verlet integration (`updatePhysics`, lines 150-196) ---

/-- The control block of `updatePhysics` (GameCanvas.tsx lines 150-185):
position-level impulses written directly into the vehicle points, in source
order (up, down, left, right, space), with no test of the `pinned` flag. -/
def applyControls (C : Consts) (s : GameState) : GameState :=
  let b0 := s.bike
  let b1 := if s.keys.up then
      let p := b0.get .rw
      b0.set .rw { p with oldx := p.oldx - C.WHEEL_SPEED }
    else b0
  let b2 := if s.keys.down then
      let p := b1.get .rw
      b1.set .rw { p with oldx := p.oldx + C.WHEEL_SPEED * 0.5 }
    else b1
  let b3 := if s.keys.left then
      let pA := b2.get .fw
      let bA := b2.set .fw { pA with y := pA.y - C.BIKE_TORQUE }
      let pB := bA.get .rw
      let bB := bA.set .rw { pB with y := pB.y + C.BIKE_TORQUE }
      let pC := bB.get .handle
      bB.set .handle { pC with x := pC.x - C.BIKE_TORQUE }
    else b2
  let b4 := if s.keys.right then
      let pA := b3.get .fw
      let bA := b3.set .fw { pA with y := pA.y + C.BIKE_TORQUE }
      let pB := bA.get .rw
      let bB := bA.set .rw { pB with y := pB.y - C.BIKE_TORQUE }
      let pC := bB.get .handle
      bB.set .handle { pC with x := pC.x + C.BIKE_TORQUE }
    else b3
  let b5 := if s.keys.space then
      let pA := b4.get .body
      let bA := b4.set .body { pA with y := pA.y - 2 }
      let pB := bA.get .rw
      let bB := bA.set .rw { pB with oldx := pB.oldx - 1 }
      let pC := bB.get .fw
      bB.set .fw { pC with oldx := pC.oldx + 1 }
    else b4
  { s with bike := b5 }

/-- One point's Verlet update (GameCanvas.tsx lines 188-196): pinned points
are skipped entirely. -/
def integratePoint (C : Consts) (p : Point) : Point :=
  if p.pinned then p
  else
    let vx := (p.x - p.oldx) * C.FRICTION
    let vy := (p.y - p.oldy) * C.FRICTION
    { p with oldx := p.x, oldy := p.y, x := p.x + vx, y := p.y + vy + C.GRAVITY }

/-- The `s.points.forEach` integration loop over the five vehicle points
(each update touches only its own point). -/
def integratePoints (C : Consts) (s : GameState) : GameState :=
  { s with bike :=
      { rw := integratePoint C s.bike.rw
        fw := integratePoint C s.bike.fw
        body := integratePoint C s.bike.body
        handle := integratePoint C s.bike.handle
        head := integratePoint C s.bike.head } }

/-- Controls followed by integration: the phase of `updatePhysics` before the
constraint/collision iterations (lines 150-196). -/
def integrationPhase (C : Consts) (s : GameState) : GameState :=
  integratePoints C (applyControls C s)

-- --- Constraint relaxation (`updatePhysics`, lines 201-213) ---

/-- One stick's relaxation (GameCanvas.tsx lines 201-213): skip when the
current distance is zero; otherwise each non-pinned endpoint receives half of
the correction `diff`; a pinned endpoint's half is simply not applied. -/
def relaxStick (C : Consts) (st : Stick) (b : Bike) : Bike :=
  let p1 := b.get st.p1
  let p2 := b.get st.p2
  let dx := p2.x - p1.x
  let dy := p2.y - p1.y
  let dist := C.hypot dx dy
  if dist = 0 then b
  else
    let diff := (st.length - dist) / dist * st.stiffness
    let ox := dx * diff * 0.5
    let oy := dy * diff * 0.5
    let b1 := if p1.pinned then b else b.set st.p1 { p1 with x := p1.x - ox, y := p1.y - oy }
    if p2.pinned then b1
    else
      let q := b1.get st.p2
      b1.set st.p2 { q with x := q.x + ox, y := q.y + oy }

/-- The `s.sticks.forEach` constraint pass. -/
def relaxPass (C : Consts) (sticks : List Stick) (b : Bike) : Bike :=
  sticks.foldl (fun b st => relaxStick C st b) b

-- --- Collision resolution (`checkCollisions`, lines 222-296) ---

/-- JavaScript `||` with a numeric default: `0` is falsy, so a present zero
radius would still fall back to the default (matches `k.r || 15`). -/
def orDefault (v : Option ℚ) (d : ℚ) : ℚ :=
  match v with
  | none => d
  | some x => if x = 0 then d else x

/-- Resolution of one point against one terrain segment (the body of the
inner loop of `checkCollisions`, lines 231-294).  `none` models the
`die(); return;` taken on a hard head impact, which aborts the whole
`checkCollisions` call.  A degenerate zero-length segment produces `NaN`
throughout the JavaScript computation and hence no contact, modelled by the
explicit `denom = 0` test.  In `nx`, Lean's `dx / 0 = 0` coincides with the
JavaScript fallback `dx / dist || 0`; `ny` keeps the source's quirk that a
zero quotient (including the `dy = 0` case) falls back to `-1`. -/
def collidePointSeg (C : Consts) (isHead : Bool) (p : Point)
    (a b : ℚ × ℚ) : Option Point :=
  if p.x < min a.1 b.1 - 50 ∨ p.x > max a.1 b.1 + 50 then some p
  else
    let sx := b.1 - a.1
    let sy := b.2 - a.2
    let px := p.x - a.1
    let py := p.y - a.2
    let denom := sx * sx + sy * sy
    if denom = 0 then some p
    else
      let t := max 0 (min 1 ((px * sx + py * sy) / denom))
      let cx := a.1 + t * sx
      let cy := a.2 + t * sy
      let dx := p.x - cx
      let dy := p.y - cy
      let dist := C.hypot dx dy
      if dist < p.radius then
        if isHead ∧ dist < p.radius * 0.8 then none
        else
          let overlap := p.radius - dist
          let nx := dx / dist
          let ny := if dy / dist = 0 then -1 else dy / dist
          let x1 := p.x + nx * overlap
          let y1 := p.y + ny * overlap
          let vx := x1 - p.oldx
          let vy := y1 - p.oldy
          let dot := vx * (-ny) + vy * nx
          let oldx1 := p.oldx + -ny * dot * (1 - C.GROUND_FRICTION)
          let oldy1 := p.oldy + nx * dot * (1 - C.GROUND_FRICTION)
          let rot1 := if p.isWheel then
              p.rotation + C.hypot vx vy * (if dot > 0 then 1 else -1) * 0.2
            else p.rotation
          some { p with x := x1, y := y1, oldx := oldx1, oldy := oldy1, rotation := rot1 }
      else some p

/-- One point against the whole terrain polyline, segment by segment,
carrying the point's accumulated mutations.  A `true` flag reports the fatal
head-impact `die(); return;`: the JavaScript mutates the point in place, so
the mutations from the earlier segments of the same pass survive the return
— the returned point carries them — while the aborting contact's own
push-out is not applied. -/
def collideSegs (C : Consts) (isHead : Bool) :
    List ((ℚ × ℚ) × (ℚ × ℚ)) → Point → Point × Bool
  | [], p => (p, false)
  | sg :: rest, p =>
      match collidePointSeg C isHead p sg.1 sg.2 with
      | none => (p, true)
      | some p1 => collideSegs C isHead rest p1

/-- The order in which `for (const p of s.points)` visits the vehicle points
(`state.points.push(rw, fw, body, handle, head)`, line 103). -/
def pointIds : List PId := [.rw, .fw, .body, .handle, .head]

/-- The outer point loop of `checkCollisions`: on a fatal head impact the
aborting point's in-place mutations accumulated so far are written back (the
JavaScript mutated the shared object directly), the remaining points are not
visited, and the flag reports that `die()` ran. -/
def collidePoints (C : Consts) (segs : List ((ℚ × ℚ) × (ℚ × ℚ))) :
    List PId → Bike → Bike × Bool
  | [], b => (b, false)
  | pid :: rest, b =>
      let r := collideSegs C (pid = .head) segs (b.get pid)
      if r.2 then (b.set pid r.1, true)
      else collidePoints C segs rest (b.set pid r.1)

/-- Consecutive terrain vertices as segments. -/
def segsOf (terrain : List (ℚ × ℚ)) : List ((ℚ × ℚ) × (ℚ × ℚ)) :=
  terrain.zip terrain.tail

/-- `checkCollisions` (GameCanvas.tsx lines 222-296): the death-by-fall check
against `terrain[0].y + 2000` calls `die()` but does not return, so the
terrain loop still runs.  `initLevel` always builds at least three terrain
vertices; on an empty terrain the JavaScript would throw a TypeError at
`s.terrain[0].y`, so the `[]` branch below is only a totality placeholder
outside the program's domain, and no theorem or concrete evaluation in this
file depends on it. -/
def checkCollisionsDef (C : Consts) (s : GameState) : GameState :=
  let s1 :=
    match s.terrain with
    | [] => s
    | t0 :: _ => if s.bike.head.y > t0.2 + 2000 then dieS s else s
  let r := collidePoints C (segsOf s1.terrain) pointIds s1.bike
  let s2 := { s1 with bike := r.1 }
  if r.2 then dieS s2 else s2

-- --- Gameplay evaluation (`checkGameplay`, lines 298-345) ---

/-- Collection test of one uncollected apple against the four body parts
(`for(const part of bikeParts)` with `break`, lines 307-313). -/
def collectApple (C : Consts) (parts : List Point) (a : Entity) : Entity :=
  if parts.any (fun p => decide (C.hypot (p.x - a.x) (p.y - a.y) < 35)) then
    { a with collected := true }
  else a

/-- One step of the `s.apples.forEach` loop: an apple already collected
before this evaluation is counted; an uncollected one is tested (and never
counted in this same evaluation even if just collected). -/
def appleStep (C : Consts) (parts : List Point)
    (acc : List Entity × ℕ) (a : Entity) : List Entity × ℕ :=
  if a.collected then (acc.1 ++ [a], acc.2 + 1)
  else (acc.1 ++ [collectApple C parts a], acc.2)

/-- `checkGameplay` (GameCanvas.tsx lines 298-345): apples, then the flower
unlock/win block (only when the previously-collected count equals the apple
count), then the killer checks; the throttled UI mirror is rendering-boundary
state and is omitted. -/
def checkGameplayDef (C : Consts) (s : GameState) : GameState :=
  let parts := [s.bike.rw, s.bike.fw, s.bike.body, s.bike.head]
  let ac := s.apples.foldl (appleStep C parts) ([], 0)
  let collectedCount := ac.2
  let unlocked1 := if collectedCount = s.apples.length then true else s.flower.unlocked
  let st1 :=
    if collectedCount = s.apples.length then
      parts.foldl
        (fun st p =>
          if C.hypot (p.x - s.flower.x) (p.y - s.flower.y) < 35 then winStatus st else st)
        s.status
    else s.status
  let st2 :=
    s.killers.foldl
      (fun st k =>
        parts.foldl
          (fun st p =>
            if C.hypot (p.x - k.x) (p.y - k.y) < orDefault k.r 15 + p.radius then
              dieStatus st
            else st)
          st)
      st1
  { s with apples := ac.1, flower := { s.flower with unlocked := unlocked1 }, status := st2 }

-- --- The fixed physics step (`updatePhysics`, lines 146-220) ---

/-- One iteration of the combined constraint/collision loop (lines 199-217):
stick constraints first, then terrain collisions. -/
def physIter (C : Consts) (s : GameState) : GameState :=
  checkCollisionsDef C { s with bike := relaxPass C s.sticks s.bike }

/-- `updatePhysics` (GameCanvas.tsx lines 146-220): a no-op unless the status
is PLAYING; otherwise controls, integration, `ITERATIONS` constraint-and-
collision iterations, and the gameplay evaluation. -/
def updatePhysics (C : Consts) (s : GameState) : GameState :=
  if s.status = .PLAYING then
    checkGameplayDef C ((physIter C)^[C.ITERATIONS] (integrationPhase C s))
  else s

-- --- Level initialization (`initLevel`, lines 50-136) ---

/-- `createPoint` (GameCanvas.tsx lines 8-10). -/
def createPoint (x y mass radius : ℚ) (isWheel : Bool) : Point :=
  { x := x, y := y, oldx := x, oldy := y, mass := mass, radius := radius
    isWheel := isWheel, pinned := false, rotation := 0 }

/-- `createStick` (GameCanvas.tsx lines 13-17): a `null` (or, by JavaScript
falsiness, zero) length argument is replaced by the endpoints' current
distance. -/
def createStick (C : Consts) (b : Bike) (i1 i2 : PId) (length : Option ℚ)
    (stiffness : ℚ) (visible : Bool) (width : ℚ) : Stick :=
  let p1 := b.get i1
  let p2 := b.get i2
  let len :=
    match length with
    | none => C.hypot (p2.x - p1.x) (p2.y - p1.y)
    | some l => if l = 0 then C.hypot (p2.x - p1.x) (p2.y - p1.y) else l
  { p1 := i1, p2 := i2, length := len, stiffness := stiffness
    visible := visible, width := width }

/-- Result of the procedural terrain loop: interior vertices, entities, and
the final walker position. -/
structure GenOut where
  vs : List (ℚ × ℚ)
  apples : List Entity
  killers : List Entity
  tX : ℚ
  tY : ℚ
deriving Repr

/-- The body of `for(let i = 0; i < GAME_CONFIG.TERRAIN_SEGMENTS; i++)`
(GameCanvas.tsx lines 66-87), with `Math.random()` modelled as the stream
`r` consumed at increasing indices exactly in source order: step, variation,
flatten test, apple test, (apple height when an apple spawns), and the killer
test only when `i > 3` (JavaScript `&&` short-circuits before the call). -/
def genLoop (r : ℕ → ℚ) (height : ℚ) :
    ℕ → ℕ → ℕ → ℚ → ℚ → GenOut
  | 0, _, _, tX, tY => { vs := [], apples := [], killers := [], tX := tX, tY := tY }
  | n + 1, i, idx, tX, tY =>
      let tX1 := tX + (80 + r idx * 100)
      let variation := (r (idx + 1) - 0.5) * 250
      let tY1 := tY + variation
      let tY2 := max 200 (min (height + 200) tY1)
      let tY3 := if r (idx + 2) > 0.8 then height - 200 else tY2
      let spawnApple := r (idx + 3) > 0.5
      let apple : List Entity :=
        if spawnApple then
          [{ x := tX1, y := tY3 - 120 - r (idx + 4) * 50, r := none, collected := false }]
        else []
      let idx1 := if spawnApple then idx + 5 else idx + 4
      let killer : List Entity :=
        if i > 3 then
          if r idx1 > 0.7 then
            [{ x := tX1 + 20, y := tY3 - 15, r := some 15, collected := false }]
          else []
        else []
      let idx2 := if i > 3 then idx1 + 1 else idx1
      let rest := genLoop r height n (i + 1) idx2 tX1 tY3
      { vs := (tX1, tY3) :: rest.vs
        apples := apple ++ rest.apples
        killers := killer ++ rest.killers
        tX := rest.tX
        tY := rest.tY }

/-- Terrain and entity generation of `initLevel` (GameCanvas.tsx lines
59-91): the deep start anchor at `(0, height + 2000)`, the start vertex at
`(0, height - 200)`, the generated interior, the deep end anchor at
`(tX + 500, height + 2000)`, and the flower 100 units above the last
generated vertex. -/
def generateLevel (r : ℕ → ℚ) (height : ℚ) (segments : ℕ) :
    List (ℚ × ℚ) × List Entity × List Entity × Flower :=
  let out := genLoop r height segments 0 0 0 (height - 200)
  ((0, height + 2000) :: (0, height - 200) :: out.vs ++ [(out.tX + 500, height + 2000)],
   out.apples, out.killers,
   { x := out.tX, y := out.tY - 100, unlocked := false })

/-- The vehicle of `initLevel` (GameCanvas.tsx lines 93-119): five points at
fixed offsets from `(200, height - 400)` and nine sticks, lengths computed
from the built geometry. -/
def buildBike (C : Consts) (height : ℚ) : Bike × List Stick :=
  let sx : ℚ := 200
  let sy : ℚ := height - 400
  let b : Bike :=
    { rw := createPoint sx sy 1.5 23 true
      fw := createPoint (sx + 85) sy 1.5 23 true
      body := createPoint (sx + 40) (sy - 45) 2 10 false
      handle := createPoint (sx + 60) (sy - 70) 0.5 5 false
      head := createPoint (sx + 20) (sy - 95) 0.5 12 false }
  (b,
   [createStick C b .rw .body none C.SUSPENSION_STIFFNESS true 2,
    createStick C b .fw .handle none C.SUSPENSION_STIFFNESS true 2,
    createStick C b .rw .fw none C.RIGID_STIFFNESS true 2,
    createStick C b .body .handle none C.RIGID_STIFFNESS true 2,
    createStick C b .body .head none C.RIGID_STIFFNESS true 2,
    createStick C b .rw .handle none C.RIGID_STIFFNESS false 2,
    createStick C b .fw .body none C.RIGID_STIFFNESS false 2,
    createStick C b .rw .head none 0.5 false 2,
    createStick C b .handle .head none C.RIGID_STIFFNESS false 2])

/-- `initLevel` (GameCanvas.tsx lines 50-136): regenerates terrain and
entities, rebuilds the vehicle, clears the input flags and sets the status to
the requested start status (timers and camera are rendering-boundary state). -/
def initLevelState (C : Consts) (r : ℕ → ℚ) (height : ℚ)
    (startStatus : GameStatus) : GameState :=
  let gen := generateLevel r height C.TERRAIN_SEGMENTS
  let bk := buildBike C height
  { bike := bk.1
    sticks := bk.2
    terrain := gen.1
    apples := gen.2.1
    killers := gen.2.2.1
    flower := gen.2.2.2
    keys := { up := false, down := false, left := false, right := false
              space := false, enter := false }
    status := startStatus }

-- --- Helper lemmas ---

theorem Bike.get_set (b : Bike) (i j : PId) (p : Point) :
    (b.set i p).get j = if j = i then p else b.get j := by
  cases i <;> cases j <;> simp [Bike.get, Bike.set]

theorem pid_rw_ne_head : PId.rw ≠ PId.head := by decide

theorem pid_fw_ne_head : PId.fw ≠ PId.head := by decide

theorem pid_body_ne_head : PId.body ≠ PId.head := by decide

theorem pid_handle_ne_head : PId.handle ≠ PId.head := by decide

theorem dieS_bike (s : GameState) : (dieS s).bike = s.bike := by
  unfold dieS; split <;> rfl

theorem dieS_terrain (s : GameState) : (dieS s).terrain = s.terrain := by
  unfold dieS; split <;> rfl

theorem dieS_status_dead (s : GameState) (h : s.status = .DEAD) :
    (dieS s).status = .DEAD := by
  simp [dieS, h]

theorem integratePoints_get (C : Consts) (s : GameState) (pid : PId) :
    (integratePoints C s).bike.get pid = integratePoint C (s.bike.get pid) := by
  cases pid <;> rfl

/-- A stick relaxation never touches a pinned point. -/
theorem relaxStick_pinned (C : Consts) (st : Stick) (b : Bike) (pid : PId)
    (h : (b.get pid).pinned = true) :
    (relaxStick C st b).get pid = b.get pid := by
  by_cases hd : C.hypot ((b.get st.p2).x - (b.get st.p1).x)
      ((b.get st.p2).y - (b.get st.p1).y) = 0
  · simp [relaxStick, hd]
  · by_cases h1 : (b.get st.p1).pinned
    · by_cases h2 : (b.get st.p2).pinned
      · simp [relaxStick, hd, h1, h2]
      · have hne2 : pid ≠ st.p2 := fun he => h2 (he ▸ h)
        simp [relaxStick, hd, h1, h2, Bike.get_set, hne2]
    · have hne1 : pid ≠ st.p1 := fun he => h1 (he ▸ h)
      by_cases h2 : (b.get st.p2).pinned
      · simp [relaxStick, hd, h1, h2, Bike.get_set, hne1]
      · have hne2 : pid ≠ st.p2 := fun he => h2 (he ▸ h)
        simp [relaxStick, hd, h1, h2, Bike.get_set, hne1, hne2]

/-- A whole constraint pass never touches a pinned point. -/
theorem relaxPass_pinned (C : Consts) (sticks : List Stick) (b : Bike) (pid : PId)
    (h : (b.get pid).pinned = true) :
    (relaxPass C sticks b).get pid = b.get pid := by
  induction sticks generalizing b with
  | nil => rfl
  | cons st rest ih =>
      have hstep := relaxStick_pinned C st b pid h
      have : relaxPass C (st :: rest) b = relaxPass C rest (relaxStick C st b) := rfl
      rw [this, ih (relaxStick C st b) (by rw [hstep]; exact h), hstep]

/-- A fold over a status that starts WON and whose step fixes WON ends WON. -/
theorem foldl_status_won {α : Type} (f : GameStatus → α → GameStatus)
    (hf : ∀ a, f .WON a = .WON) :
    ∀ l : List α, l.foldl f .WON = .WON := by
  intro l
  induction l with
  | nil => rfl
  | cons a rest ih => simp [List.foldl, hf, ih]

/-- A conditional-win fold started from PLAYING reaches WON as soon as some
element satisfies the condition. -/
theorem foldl_win_of_mem {α : Type} (cond : α → Prop) [DecidablePred cond] :
    ∀ l : List α, (∃ a ∈ l, cond a) →
      l.foldl (fun st a => if cond a then winStatus st else st) .PLAYING = .WON := by
  intro l
  induction l with
  | nil => rintro ⟨a, ha, _⟩; cases ha
  | cons a rest ih =>
      rintro ⟨b, hb, hcb⟩
      by_cases hca : cond a
      · simp only [List.foldl, if_pos hca]
        have hwon : winStatus GameStatus.PLAYING = .WON := rfl
        rw [hwon]
        exact foldl_status_won _ (fun c => by by_cases h : cond c <;> simp [h, winStatus]) rest
      · simp only [List.foldl, if_neg hca]
        rcases List.mem_cons.mp hb with h | h
        · exact absurd (h ▸ hcb) hca
        · exact ih ⟨b, h, hcb⟩

/-- The apple loop counts exactly the apples already collected before the
evaluation. -/
theorem appleFold_count (C : Consts) (parts : List Point) :
    ∀ (l : List Entity) (acc : List Entity × ℕ),
      (∀ a ∈ l, a.collected = true) →
      (l.foldl (appleStep C parts) acc).2 = acc.2 + l.length := by
  intro l
  induction l with
  | nil => intro acc _; simp
  | cons a rest ih =>
      intro acc hall
      have ha : a.collected = true := hall a (List.mem_cons_self a rest)
      have hrest : ∀ b ∈ rest, b.collected = true := fun b hb => hall b (List.mem_cons_of_mem a hb)
      simp only [List.foldl, appleStep, ha, if_pos]
      rw [ih _ hrest]
      simp [List.length_cons]
      ring

-- --- Claim C1: status transitions ---

/-- C1: `die()` and `win()` change the status only from PLAYING (to DEAD
resp. WON); from any other status both are exact no-ops on the whole state,
a physics step on a non-PLAYING state is the identity, so DEAD/WON persist
until an explicit `initLevel`, which sets the requested start status. -/
theorem C1_status_transitions :
    (∀ s : GameState, s.status ≠ .PLAYING → dieS s = s ∧ winS s = s)
    ∧ (∀ s : GameState, s.status = .PLAYING →
        (dieS s).status = .DEAD ∧ (winS s).status = .WON)
    ∧ (∀ (C : Consts) (s : GameState), s.status ≠ .PLAYING → updatePhysics C s = s)
    ∧ (∀ (C : Consts) (r : ℕ → ℚ) (h : ℚ) (st : GameStatus),
        (initLevelState C r h st).status = st) := by
  refine ⟨?_, ?_, ?_, ?_⟩
  · intro s hs
    constructor
    · unfold dieS; rw [if_neg hs]
    · unfold winS; rw [if_neg hs]
  · intro s hs
    constructor
    · unfold dieS; rw [if_pos hs]
    · unfold winS; rw [if_pos hs]
  · intro C s hs
    unfold updatePhysics
    rw [if_neg hs]
  · intro C r h st
    rfl

-- --- Concrete data for closed evaluations ---

/-- All input flags released. -/
def noKeys : InputState :=
  { up := false, down := false, left := false, right := false
    space := false, enter := false }

/-- A concrete admissible constants record for closed evaluations, with
`Math.hypot` instantiated by `l1norm` (exact on the axis-aligned inputs the
evaluations below query). -/
def CW : Consts :=
  { hypot := l1norm, WHEEL_SPEED := 1, BIKE_TORQUE := 1, FRICTION := 1
    GRAVITY := 5, GROUND_FRICTION := 0.5, SUSPENSION_STIFFNESS := 0.7
    RIGID_STIFFNESS := 0.9, ITERATIONS := 2, TERRAIN_SEGMENTS := 50 }

/-- A concrete vehicle at rest, spread along the x-axis. -/
def bikeW : Bike :=
  { rw := createPoint 0 0 1.5 23 true
    fw := createPoint 100 0 1.5 23 true
    body := createPoint 200 0 2 10 false
    handle := createPoint 300 0 0.5 5 false
    head := createPoint 400 0 0.5 12 false }

/-- A concrete finished (WON) state.  Its terrain is empty, which is
harmless for every use below: on a non-PLAYING status `updatePhysics`
returns at once (line 148) before any terrain access, and the gameplay and
integration evaluations built on this record never read the terrain; every
concrete full physics step in this file runs on a state carrying
`farTerrain` instead. -/
def stateWON : GameState :=
  { bike := bikeW, sticks := [], terrain := [], apples := [], killers := []
    flower := { x := 100000, y := 5, unlocked := true }, keys := noKeys
    status := .WON }

/-- The same state mid-run. -/
def statePLAY : GameState := { stateWON with status := .PLAYING }

/-- C1 witness: `die`/`win` leave a WON state untouched, `die` kills a
PLAYING state, a physics step on a WON state is the identity, and `initLevel`
resets the status. -/
theorem C1_status_transitions_instance :
    (dieS stateWON = stateWON ∧ winS stateWON = stateWON)
    ∧ (dieS statePLAY).status = .DEAD
    ∧ updatePhysics CW stateWON = stateWON
    ∧ (initLevelState CW (fun _ => 0) 600 .PLAYING).status = .PLAYING :=
  ⟨C1_status_transitions.1 stateWON (by decide),
   (C1_status_transitions.2.1 statePLAY (by decide)).1,
   C1_status_transitions.2.2.1 CW stateWON (by decide),
   C1_status_transitions.2.2.2 CW (fun _ => 0) 600 .PLAYING⟩

-- --- Claim C2: pinned endpoint in a constraint pass ---

/-- A stick between a pinned rear wheel at the origin and a free front wheel
at `(2, 0)`, with rest length 4 and stiffness 1. -/
def stickC2 : Stick :=
  { p1 := .rw, p2 := .fw, length := 4, stiffness := 1, visible := true, width := 2 }

/-- The bike for the C2 evaluation: `rw` pinned at `(0,0)`, `fw` free at
`(2,0)`. -/
def bikeC2 : Bike :=
  { bikeW with
    rw := { createPoint 0 0 1.5 23 true with pinned := true }
    fw := createPoint 2 0 1.5 23 true }

/-- C2 counterexample: with the pinned `rw` at distance 2 from the free `fw`
and rest length 4 (so `diff = 1`), the code moves the free endpoint to
`x = 3` — only its own 50% share `dx * diff * 0.5 = 1` — not to `x = 4`,
which the claimed transfer of the entire correction `dx * diff = 2` would
give.  The pinned endpoint is indeed unmoved. -/
theorem C2_counterexample :
    (relaxStick CW stickC2 bikeC2).get .rw = bikeC2.get .rw
    ∧ ((relaxStick CW stickC2 bikeC2).get .fw).x = 3
    ∧ ((relaxStick CW stickC2 bikeC2).get .fw).x ≠
        (bikeC2.get .fw).x + ((bikeC2.get .fw).x - (bikeC2.get .rw).x) *
          ((stickC2.length - CW.hypot 2 0) / CW.hypot 2 0 * stickC2.stiffness) := by
  norm_num [relaxStick, l1norm, CW, stickC2, bikeC2, bikeW, createPoint, Bike.get, Bike.set]

/-- C2 (amended): in one relaxation pass over a stick whose current endpoint
distance is nonzero and which has exactly one pinned endpoint — either
orientation — the pinned endpoint is not moved, and the free endpoint
receives exactly its own 50% share `d * diff * 0.5` of the correction
`diff = (restLength - dist) / dist * stiffness` (added when the free endpoint
is `p2`, subtracted when it is `p1`); the pinned endpoint's share is dropped,
not transferred. -/
theorem C2_pinned_half_share :
    (∀ (C : Consts) (st : Stick) (b : Bike),
      (b.get st.p1).pinned = true →
      (b.get st.p2).pinned = false →
      C.hypot ((b.get st.p2).x - (b.get st.p1).x)
          ((b.get st.p2).y - (b.get st.p1).y) ≠ 0 →
      (relaxStick C st b).get st.p1 = b.get st.p1
      ∧ ((relaxStick C st b).get st.p2).x =
          (b.get st.p2).x + ((b.get st.p2).x - (b.get st.p1).x) *
            ((st.length - C.hypot ((b.get st.p2).x - (b.get st.p1).x)
                ((b.get st.p2).y - (b.get st.p1).y)) /
              C.hypot ((b.get st.p2).x - (b.get st.p1).x)
                ((b.get st.p2).y - (b.get st.p1).y) * st.stiffness) * 0.5
      ∧ ((relaxStick C st b).get st.p2).y =
          (b.get st.p2).y + ((b.get st.p2).y - (b.get st.p1).y) *
            ((st.length - C.hypot ((b.get st.p2).x - (b.get st.p1).x)
                ((b.get st.p2).y - (b.get st.p1).y)) /
              C.hypot ((b.get st.p2).x - (b.get st.p1).x)
                ((b.get st.p2).y - (b.get st.p1).y) * st.stiffness) * 0.5)
    ∧ (∀ (C : Consts) (st : Stick) (b : Bike),
      (b.get st.p1).pinned = false →
      (b.get st.p2).pinned = true →
      C.hypot ((b.get st.p2).x - (b.get st.p1).x)
          ((b.get st.p2).y - (b.get st.p1).y) ≠ 0 →
      (relaxStick C st b).get st.p2 = b.get st.p2
      ∧ ((relaxStick C st b).get st.p1).x =
          (b.get st.p1).x - ((b.get st.p2).x - (b.get st.p1).x) *
            ((st.length - C.hypot ((b.get st.p2).x - (b.get st.p1).x)
                ((b.get st.p2).y - (b.get st.p1).y)) /
              C.hypot ((b.get st.p2).x - (b.get st.p1).x)
                ((b.get st.p2).y - (b.get st.p1).y) * st.stiffness) * 0.5
      ∧ ((relaxStick C st b).get st.p1).y =
          (b.get st.p1).y - ((b.get st.p2).y - (b.get st.p1).y) *
            ((st.length - C.hypot ((b.get st.p2).x - (b.get st.p1).x)
                ((b.get st.p2).y - (b.get st.p1).y)) /
              C.hypot ((b.get st.p2).x - (b.get st.p1).x)
                ((b.get st.p2).y - (b.get st.p1).y) * st.stiffness) * 0.5) := by
  constructor
  · intro C st b h1 h2 hd
    refine ⟨relaxStick_pinned C st b st.p1 h1, ?_, ?_⟩ <;>
      simp [relaxStick, hd, h1, h2, Bike.get_set]
  · intro C st b h1 h2 hd
    have hne : st.p1 ≠ st.p2 := by
      intro he
      rw [he, h2] at h1
      simp at h1
    have hne2 : st.p2 ≠ st.p1 := Ne.symm hne
    refine ⟨?_, ?_, ?_⟩ <;>
      simp [relaxStick, hd, h1, h2, Bike.get_set, hne, hne2]

/-- The same concrete stick with the endpoints listed the other way around:
`p1` is the free front wheel, `p2` the pinned rear wheel. -/
def stickC2r : Stick :=
  { p1 := .fw, p2 := .rw, length := 4, stiffness := 1, visible := true, width := 2 }

/-- C2 witness: the amended statement applied to the concrete stick in both
orientations (pinned first endpoint, then pinned second endpoint). -/
theorem C2_pinned_half_share_instance :
    ((relaxStick CW stickC2 bikeC2).get stickC2.p1 = bikeC2.get stickC2.p1
    ∧ ((relaxStick CW stickC2 bikeC2).get stickC2.p2).x =
        (bikeC2.get stickC2.p2).x +
          ((bikeC2.get stickC2.p2).x - (bikeC2.get stickC2.p1).x) *
          ((stickC2.length - CW.hypot ((bikeC2.get stickC2.p2).x - (bikeC2.get stickC2.p1).x)
              ((bikeC2.get stickC2.p2).y - (bikeC2.get stickC2.p1).y)) /
            CW.hypot ((bikeC2.get stickC2.p2).x - (bikeC2.get stickC2.p1).x)
              ((bikeC2.get stickC2.p2).y - (bikeC2.get stickC2.p1).y) * stickC2.stiffness) * 0.5
    ∧ ((relaxStick CW stickC2 bikeC2).get stickC2.p2).y =
        (bikeC2.get stickC2.p2).y +
          ((bikeC2.get stickC2.p2).y - (bikeC2.get stickC2.p1).y) *
          ((stickC2.length - CW.hypot ((bikeC2.get stickC2.p2).x - (bikeC2.get stickC2.p1).x)
              ((bikeC2.get stickC2.p2).y - (bikeC2.get stickC2.p1).y)) /
            CW.hypot ((bikeC2.get stickC2.p2).x - (bikeC2.get stickC2.p1).x)
              ((bikeC2.get stickC2.p2).y - (bikeC2.get stickC2.p1).y) * stickC2.stiffness) * 0.5)
    ∧ ((relaxStick CW stickC2r bikeC2).get stickC2r.p2 = bikeC2.get stickC2r.p2
    ∧ ((relaxStick CW stickC2r bikeC2).get stickC2r.p1).x =
        (bikeC2.get stickC2r.p1).x -
          ((bikeC2.get stickC2r.p2).x - (bikeC2.get stickC2r.p1).x) *
          ((stickC2r.length - CW.hypot ((bikeC2.get stickC2r.p2).x - (bikeC2.get stickC2r.p1).x)
              ((bikeC2.get stickC2r.p2).y - (bikeC2.get stickC2r.p1).y)) /
            CW.hypot ((bikeC2.get stickC2r.p2).x - (bikeC2.get stickC2r.p1).x)
              ((bikeC2.get stickC2r.p2).y - (bikeC2.get stickC2r.p1).y) * stickC2r.stiffness) * 0.5
    ∧ ((relaxStick CW stickC2r bikeC2).get stickC2r.p1).y =
        (bikeC2.get stickC2r.p1).y -
          ((bikeC2.get stickC2r.p2).y - (bikeC2.get stickC2r.p1).y) *
          ((stickC2r.length - CW.hypot ((bikeC2.get stickC2r.p2).x - (bikeC2.get stickC2r.p1).x)
              ((bikeC2.get stickC2r.p2).y - (bikeC2.get stickC2r.p1).y)) /
            CW.hypot ((bikeC2.get stickC2r.p2).x - (bikeC2.get stickC2r.p1).x)
              ((bikeC2.get stickC2r.p2).y - (bikeC2.get stickC2r.p1).y) * stickC2r.stiffness) * 0.5) :=
  ⟨C2_pinned_half_share.1 CW stickC2 bikeC2 rfl rfl
    (by norm_num [CW, l1norm, stickC2, bikeC2, bikeW, createPoint, Bike.get]),
   C2_pinned_half_share.2 CW stickC2r bikeC2 rfl rfl
    (by norm_num [CW, l1norm, stickC2r, bikeC2, bikeW, createPoint, Bike.get])⟩

-- --- Claim C3: fall death does not stop the resolution pass ---

/-- A state whose head is past the fall line (`terrain[0].y + 2000 = 2000`)
while the rear wheel penetrates the ground segment from `(0,0)` to
`(100,0)`; the other three points are far to the right of the segment's
broad-phase window. -/
def stateC3 : GameState :=
  { bike :=
      { rw := createPoint 50 (-5) 1.5 23 true
        fw := createPoint 1000000 0 1.5 23 true
        body := createPoint 1000000 (-45) 2 10 false
        handle := createPoint 1000000 (-70) 0.5 5 false
        head := createPoint 50 3000 0.5 12 false }
    sticks := [], terrain := [(0, 0), (100, 0)], apples := [], killers := []
    flower := { x := 1000000, y := 0, unlocked := false }, keys := noKeys
    status := .PLAYING }

/-- C3 counterexample: on this pass the head is past the fall line, so death
is triggered — yet the claimed stop does not happen: the rear wheel is still
pushed out of the terrain (from `y = -5` to `y = -23`) and still receives its
wheel-rotation update in the same `checkCollisions` call. -/
theorem C3_counterexample :
    (checkCollisionsDef CW stateC3).status = .DEAD
    ∧ ((checkCollisionsDef CW stateC3).bike.get .rw).y = -23
    ∧ ((checkCollisionsDef CW stateC3).bike.get .rw).rotation = -18 / 5
    ∧ (stateC3.bike.get .rw).y = -5
    ∧ (stateC3.bike.get .rw).rotation = 0 := by
  norm_num [checkCollisionsDef, collidePoints, collideSegs, collidePointSeg, segsOf,
    dieS, stateC3, CW, l1norm, createPoint, noKeys, Bike.get, Bike.set, pointIds,
    pid_rw_ne_head, pid_fw_ne_head, pid_body_ne_head, pid_handle_ne_head]

/-- C3 (amended): when `head.y` exceeds `terrain[0].y + 2000` on a pass that
starts PLAYING, death is triggered — but collision resolution is not stopped:
the whole point/segment loop still runs on the current bike exactly as it
would have without the death (only a fatal head-terrain impact inside the
loop aborts the remainder of the call). -/
theorem C3_fall_death_continues (C : Consts) (s : GameState)
    (t0 : ℚ × ℚ) (rest : List (ℚ × ℚ))
    (ht : s.terrain = t0 :: rest)
    (hp : s.status = .PLAYING)
    (hf : s.bike.head.y > t0.2 + 2000) :
    (checkCollisionsDef C s).status = .DEAD
    ∧ (checkCollisionsDef C s).bike =
        (collidePoints C (segsOf s.terrain) pointIds s.bike).1 := by
  have hdie : dieS s = { s with status := .DEAD } := by simp [dieS, hp]
  unfold checkCollisionsDef
  rw [ht]
  simp only [hf, if_true, hdie]
  constructor
  · split <;> simp [dieS]
  · split <;> simp [dieS, ht]

-- --- Claim C4: only the head triggers fall death ---

/-- A PLAYING state whose rear wheel is far below the fall line
(`terrain[0].y + 2000 = 2000`) while the head is well above it; every point
is outside the single segment's broad-phase window. -/
def stateC4 : GameState :=
  { bike :=
      { rw := createPoint 1000000 3000 1.5 23 true
        fw := createPoint 1000000 0 1.5 23 true
        body := createPoint 1000000 (-45) 2 10 false
        handle := createPoint 1000000 (-70) 0.5 5 false
        head := createPoint 1000000 (-95) 0.5 12 false }
    sticks := [], terrain := [(0, 0), (10, 0)], apples := [], killers := []
    flower := { x := 0, y := 0, unlocked := false }, keys := noKeys
    status := .PLAYING }

/-- C4 counterexample: the rear wheel is below the death boundary
(`3000 > terrain[0].y + 2000`), yet `checkCollisions` leaves the status
PLAYING, because only the head's y-coordinate is tested. -/
theorem C4_counterexample :
    stateC4.terrain.head? = some (0, 0)
    ∧ (stateC4.bike.get .rw).y > 0 + 2000
    ∧ stateC4.status = .PLAYING
    ∧ (checkCollisionsDef CW stateC4).status = .PLAYING := by
  norm_num [checkCollisionsDef, collidePoints, collideSegs, collidePointSeg, segsOf,
    dieS, stateC4, CW, l1norm, createPoint, noKeys, Bike.get, Bike.set, pointIds]

/-- C4 (amended): the death-by-fall test reads only the head: if while
PLAYING `head.y` exceeds `terrain[0].y + 2000`, the status becomes DEAD on
that very pass (other points' positions play no role in this test, as the
counterexample shows). -/
theorem C4_head_only_fall_death (C : Consts) (s : GameState)
    (t0 : ℚ × ℚ) (rest : List (ℚ × ℚ))
    (ht : s.terrain = t0 :: rest)
    (hp : s.status = .PLAYING)
    (hf : s.bike.head.y > t0.2 + 2000) :
    (checkCollisionsDef C s).status = .DEAD :=
  (C3_fall_death_continues C s t0 rest ht hp hf).1

-- --- Claim C5: the Verlet update formula ---

/-- Modelled from the spec: the integration sequence read literally as
written — "position += velocity; position.y += velocity.y + gravityConstant"
— so that the y-coordinate receives `velocity.y` twice. -/
def specVerletLiteral (C : Consts) (p : Point) : Point :=
  let vx := (p.x - p.oldx) * C.FRICTION
  let vy := (p.y - p.oldy) * C.FRICTION
  { p with oldx := p.x, oldy := p.y, x := p.x + vx, y := (p.y + vy) + (vy + C.GRAVITY) }

/-- Modelled from the spec, amended: the per-coordinate update the code
performs — `position.x += velocity.x; position.y += velocity.y +
gravityConstant` — with `velocity.y` applied once. -/
def specVerletAmended (C : Consts) (p : Point) : Point :=
  let vx := (p.x - p.oldx) * C.FRICTION
  let vy := (p.y - p.oldy) * C.FRICTION
  { p with oldx := p.x, oldy := p.y, x := p.x + vx, y := p.y + vy + C.GRAVITY }

/-- A non-pinned point with downward velocity 1 (`oldy = -1`). -/
def pC5 : Point := { createPoint 0 0 1 5 false with oldy := -1 }

/-- C5 counterexample: with `FRICTION = 1`, `GRAVITY = 5` and `vy = 1`, the
code's update gives `y = 6` (`y + vy + g`), while the claimed sequence, taken
literally, gives `y = 7` (`y + vy` from "position += velocity" and then
`vy + g` again). -/
theorem C5_counterexample :
    (integratePoint CW pC5).y = 6
    ∧ (specVerletLiteral CW pC5).y = 7
    ∧ integratePoint CW pC5 ≠ specVerletLiteral CW pC5 := by
  norm_num [integratePoint, specVerletLiteral, pC5, createPoint, CW, Point.mk.injEq]

/-- C5 (amended): in one integration step every non-pinned vehicle point is
updated by exactly: `velocity = (position - previousPosition) * FRICTION`;
`previousPosition := position`; `position.x += velocity.x`;
`position.y += velocity.y + GRAVITY` — the y-velocity is applied once, not
twice as the literal reading of the claimed sequence would have it. -/
theorem C5_verlet_update (C : Consts) (s : GameState) (pid : PId)
    (h : (s.bike.get pid).pinned = false) :
    (integratePoints C s).bike.get pid = specVerletAmended C (s.bike.get pid) := by
  rw [integratePoints_get]
  simp [integratePoint, specVerletAmended, h]

/-- C5 witness: the amended update at a concrete non-pinned point. -/
theorem C5_verlet_update_instance :
    (integratePoints CW statePLAY).bike.get .rw =
      specVerletAmended CW (statePLAY.bike.get .rw) :=
  C5_verlet_update CW statePLAY .rw rfl

-- --- Claim C6: forward velocity under the up input ---

/-- Only the `up` flag held. -/
def upOnly : InputState := { noKeys with up := true }

/-- `f^[2] x` unfolded (used to evaluate the two-iteration constraint loop of
the concrete constants record). -/
theorem iterate_two {α : Type} (f : α → α) (x : α) : f^[2] x = f (f x) := rfl

/-- A real ground segment far to the right of everything the concrete states
below do: every broad-phase test rejects it and its fall line
`terrain[0].y + 2000 = 2000` stays far below the vehicle, so the JavaScript
trace completes normally. -/
def farTerrain : List (ℚ × ℚ) := [(1000000, 0), (1000010, 0)]

/-- The state of `statePLAY` with the `up` key held, over the far ground
segment. -/
def stateC6 : GameState := { statePLAY with keys := upOnly, terrain := farTerrain }

/-- C6 counterexample: from rest with only `up` held, one full physics step
gives the rear wheel the forward velocity `x - oldx = (0 + WHEEL_SPEED) *
FRICTION = 1 > 0`: positive, not negative as claimed.  (`oldx -=
WHEEL_SPEED` increases `x - oldx`; forward — toward the level's end — is the
positive x direction in this code.) -/
theorem C6_counterexample :
    stateC6.keys = upOnly
    ∧ ((updatePhysics CW stateC6).bike.get .rw).x
        - ((updatePhysics CW stateC6).bike.get .rw).oldx = 1
    ∧ ¬(((updatePhysics CW stateC6).bike.get .rw).x
        - ((updatePhysics CW stateC6).bike.get .rw).oldx < 0) := by
  norm_num [updatePhysics, integrationPhase, applyControls, integratePoints,
    integratePoint, physIter, relaxPass, checkCollisionsDef, collidePoints,
    collideSegs, collidePointSeg, segsOf, checkGameplayDef, appleStep,
    collectApple, orDefault, dieS, winS, dieStatus, winStatus, stateC6,
    statePLAY, stateWON, bikeW, createPoint, noKeys, upOnly, CW, l1norm,
    farTerrain, Bike.get, Bike.set, pointIds, iterate_two,
    pid_rw_ne_head, pid_fw_ne_head, pid_body_ne_head, pid_handle_ne_head]

/-- One control-and-integration phase with only `up` held multiplies the rear
wheel's forward velocity shifted by `WHEEL_SPEED` by `FRICTION`, and
preserves the hypotheses. -/
theorem C6_step (C : Consts) (s : GameState) (hk : s.keys = upOnly)
    (hpin : (s.bike.get .rw).pinned = false) :
    ((integrationPhase C s).bike.get .rw).x - ((integrationPhase C s).bike.get .rw).oldx
      = ((s.bike.get .rw).x - (s.bike.get .rw).oldx + C.WHEEL_SPEED) * C.FRICTION
    ∧ ((integrationPhase C s).bike.get .rw).pinned = false
    ∧ (integrationPhase C s).keys = upOnly := by
  have hp2 : s.bike.rw.pinned = false := hpin
  refine ⟨?_, ?_, ?_⟩ <;>
    simp [integrationPhase, applyControls, integratePoints, integratePoint,
      hk, upOnly, noKeys, Bike.get, Bike.set, hp2] <;>
    ring_nf <;>
    tauto

/-- The rear wheel's forward velocity, `position.x - previousPosition.x`. -/
def velX (s : GameState) : ℚ := (s.bike.get .rw).x - (s.bike.get .rw).oldx

/-- The constraint-and-collision iterations of one physics step leave the
rear wheel's x-state where the integration phase put it (as when the wheel is
clear of every segment's broad-phase window and no stick correction moves it
in x). -/
def rwIterUntouched (C : Consts) (s : GameState) : Prop :=
  (((physIter C)^[C.ITERATIONS] (integrationPhase C s)).bike.get .rw).x
      = ((integrationPhase C s).bike.get .rw).x
  ∧ (((physIter C)^[C.ITERATIONS] (integrationPhase C s)).bike.get .rw).oldx
      = ((integrationPhase C s).bike.get .rw).oldx

/-- The conditions under which one `updatePhysics` step drives the rear
wheel: the step runs (PLAYING), only `up` is held, the wheel is not pinned,
and this step's iterations leave the wheel's x-state untouched. -/
def stepGuard (C : Consts) (s : GameState) : Prop :=
  s.status = .PLAYING ∧ s.keys = upOnly
  ∧ (s.bike.get .rw).pinned = false ∧ rwIterUntouched C s

/-- The gameplay evaluation never moves the vehicle. -/
theorem checkGameplayDef_bike (C : Consts) (s : GameState) :
    (checkGameplayDef C s).bike = s.bike := rfl

/-- Under the guard, a full physics step sets the rear wheel's forward
velocity to `(v + WHEEL_SPEED) * FRICTION`. -/
theorem updatePhysics_velX (C : Consts) (s : GameState) (hg : stepGuard C s) :
    velX (updatePhysics C s) = (velX s + C.WHEEL_SPEED) * C.FRICTION := by
  obtain ⟨hst, hk, hpin, hu⟩ := hg
  have hstep := C6_step C s hk hpin
  unfold updatePhysics
  rw [if_pos hst]
  unfold velX
  rw [checkGameplayDef_bike, hu.1, hu.2]
  exact hstep.1

/-- C6 (amended): with `up` held and no other input, the rear wheel's forward
velocity (`position.x - previousPosition.x`) becomes positive after one
physics step — forward is the positive x direction, toward the level's end —
and remains positive after every subsequent physics step, for as long as
each step starts PLAYING and its constraint-and-collision iterations leave
the rear wheel's x-state unchanged (the wheel clear of terrain); each such
step sets the velocity to `(v + WHEEL_SPEED) * FRICTION`. -/
theorem C6_forward_velocity_positive (C : Consts)
    (hW : 0 < C.WHEEL_SPEED) (hF : 0 < C.FRICTION) (s : GameState)
    (hv : 0 ≤ velX s) :
    ∀ n : ℕ, (∀ k, k ≤ n → stepGuard C ((updatePhysics C)^[k] s)) →
      0 < velX ((updatePhysics C)^[n + 1] s) := by
  intro n
  induction n with
  | zero =>
      intro hg
      have h0 := hg 0 (le_refl 0)
      rw [Function.iterate_zero_apply] at h0
      have hone : (updatePhysics C)^[0 + 1] s = updatePhysics C s := by
        rw [Function.iterate_succ_apply', Function.iterate_zero_apply]
      rw [hone, updatePhysics_velX C s h0]
      exact mul_pos (by linarith) hF
  | succ n ih =>
      intro hg
      have hpos := ih (fun k hk2 => hg k (le_trans hk2 (Nat.le_succ n)))
      have hgn := hg (n + 1) (le_refl _)
      rw [Function.iterate_succ_apply', updatePhysics_velX C _ hgn]
      exact mul_pos (by linarith) hF

/-- C6 witness: the concrete far-terrain state satisfies the step guard (all
broad-phase tests reject, no sticks), and one full physics step yields a
positive forward velocity. -/
theorem C6_forward_velocity_positive_instance :
    0 < velX ((updatePhysics CW)^[0 + 1] stateC6) :=
  C6_forward_velocity_positive CW (by norm_num [CW]) (by norm_num [CW]) stateC6
    (by norm_num [velX, stateC6, statePLAY, stateWON, bikeW, createPoint, Bike.get])
    0
    (fun k hk2 => by
      rw [Nat.le_zero.mp hk2, Function.iterate_zero_apply]
      refine ⟨rfl, rfl, rfl, ?_, ?_⟩ <;>
        norm_num [rwIterUntouched, integrationPhase, applyControls,
          integratePoints, integratePoint, physIter, relaxPass,
          checkCollisionsDef, collidePoints, collideSegs, collidePointSeg,
          segsOf, dieS, dieStatus, stateC6, statePLAY, stateWON, bikeW,
          createPoint, noKeys, upOnly, CW, l1norm, farTerrain,
          Bike.get, Bike.set, pointIds, iterate_two,
          pid_rw_ne_head, pid_fw_ne_head, pid_body_ne_head, pid_handle_ne_head])

-- --- Claim C7: pinned-point invariance ---

/-- The PLAYING state with a pinned body point and the `space` key held,
over the far ground segment (every broad-phase test rejects, the head stays
above the fall line, and the JavaScript trace completes normally). -/
def stateC7 : GameState :=
  { stateWON with
    bike := { bikeW with body := { createPoint 200 0 2 10 false with pinned := true } }
    keys := { noKeys with space := true }
    terrain := farTerrain
    status := .PLAYING }

/-- C7 counterexample: the claim quantifies over all input-flag combinations,
but the control impulses are written without testing `pinned`: with `space`
held, `body.y -= 2` moves the pinned body point from `y = 0` to `y = -2`
within one full physics step (integration and constraint passes do skip it;
the control block does not). -/
theorem C7_counterexample :
    stateC7.bike.body.pinned = true
    ∧ stateC7.bike.body.y = 0
    ∧ ((updatePhysics CW stateC7).bike.get .body).y = -2 := by
  norm_num [updatePhysics, integrationPhase, applyControls, integratePoints,
    integratePoint, physIter, relaxPass, checkCollisionsDef, collidePoints,
    collideSegs, collidePointSeg, segsOf, checkGameplayDef, appleStep,
    collectApple, orDefault, dieS, winS, dieStatus, winStatus, stateC7,
    stateWON, bikeW, createPoint, noKeys, CW, l1norm, farTerrain,
    Bike.get, Bike.set, pointIds, iterate_two,
    pid_rw_ne_head, pid_fw_ne_head, pid_body_ne_head, pid_handle_ne_head]

/-- C7 (amended): a pinned point is invariant across the Verlet integration
loop and across any constraint-relaxation pass (for any constants, sticks and
state); the control-impulse block, however, is not covered — it writes to the
wheels, body and handle without testing `pinned`, as the counterexample
shows. -/
theorem C7_pinned_invariant :
    (∀ (C : Consts) (s : GameState) (pid : PId),
        (s.bike.get pid).pinned = true →
        (integratePoints C s).bike.get pid = s.bike.get pid)
    ∧ (∀ (C : Consts) (sticks : List Stick) (b : Bike) (pid : PId),
        (b.get pid).pinned = true →
        (relaxPass C sticks b).get pid = b.get pid) := by
  constructor
  · intro C s pid h
    rw [integratePoints_get]
    simp [integratePoint, h]
  · intro C sticks b pid h
    exact relaxPass_pinned C sticks b pid h

/-- C7 witness: the invariance applied to the pinned body of `stateC7` and to
the pinned rear wheel of `bikeC2` under a one-stick pass. -/
theorem C7_pinned_invariant_instance :
    (integratePoints CW stateC7).bike.get .body = stateC7.bike.get .body
    ∧ (relaxPass CW [stickC2] bikeC2).get .rw = bikeC2.get .rw :=
  ⟨C7_pinned_invariant.1 CW stateC7 .body rfl,
   C7_pinned_invariant.2 CW [stickC2] bikeC2 .rw rfl⟩

-- --- Claim C8: terrain anchors and monotonicity ---

/-- Invariant of the terrain walker: starting the loop at `(tX, tY)`, the
produced vertices have non-decreasing x prefixed by the start, the final
walker position is the last produced vertex (or the start), the walker only
moves right, and every produced y is either the flat value `height - 200` or
a clamp result in `[200, max 200 (height + 200)]`. -/
theorem genLoop_spec (r : ℕ → ℚ) (height : ℚ) (hr : ∀ k, 0 ≤ r k) :
    ∀ (n i idx : ℕ) (tX tY : ℚ),
      List.Chain' (fun a b : ℚ × ℚ => a.1 ≤ b.1)
        ((tX, tY) :: (genLoop r height n i idx tX tY).vs)
      ∧ ((tX, tY) :: (genLoop r height n i idx tX tY).vs).getLast?
          = some ((genLoop r height n i idx tX tY).tX, (genLoop r height n i idx tX tY).tY)
      ∧ tX ≤ (genLoop r height n i idx tX tY).tX
      ∧ ∀ v ∈ (genLoop r height n i idx tX tY).vs,
          v.2 = height - 200 ∨ (200 ≤ v.2 ∧ v.2 ≤ max 200 (height + 200)) := by
  intro n
  induction n with
  | zero =>
      intro i idx tX tY
      refine ⟨List.chain'_singleton _, rfl, le_refl _, ?_⟩
      intro v hv
      cases hv
  | succ n ih =>
      intro i idx tX tY
      have hstep : tX ≤ tX + (80 + r idx * 100) := by
        have h0 := hr idx
        nlinarith
      -- name the pieces of the unfolded loop body
      simp only [genLoop]
      set tX1 := tX + (80 + r idx * 100) with htX1
      set tY1 := tY + (r (idx + 1) - 0.5) * 250 with htY1
      set tY2 := max 200 (min (height + 200) tY1) with htY2
      set tY3 := if r (idx + 2) > 0.8 then height - 200 else tY2 with htY3
      set idx1 := if r (idx + 3) > 0.5 then idx + 5 else idx + 4 with hidx1
      set idx2 := if i > 3 then idx1 + 1 else idx1 with hidx2
      have hih := ih (i + 1) idx2 tX1 tY3
      refine ⟨?_, ?_, ?_, ?_⟩
      · rw [List.chain'_cons]
        exact ⟨hstep, hih.1⟩
      · rw [List.getLast?_cons_cons]
        exact hih.2.1
      · exact le_trans hstep hih.2.2.1
      · intro v hv
        rcases List.mem_cons.mp hv with h | h
        · subst h
          rw [htY3]
          split
          · exact Or.inl rfl
          · refine Or.inr ⟨le_max_left _ _, ?_⟩
            rw [htY2]
            exact max_le_max (le_refl _) (min_le_left _ _)
        · exact hih.2.2.2 v h

/-- C8 counterexample: with the constant-zero random source, height 1000 and
one segment, the first terrain vertex — the deep start anchor — sits at
`x = 0`, the generated start x-position itself, not at the claimed
`start - 500 = -500`. -/
theorem C8_counterexample :
    (generateLevel (fun _ => 0) 1000 1).1.head? = some (0, 3000)
    ∧ (0 : ℚ) ≠ 0 - 500 := by
  constructor
  · norm_num [generateLevel]
  · norm_num

/-- C8 (amended): for any random source with nonnegative outputs and positive
level height, the generated terrain starts with the deep anchor at the
generated start x-position itself, `(0, height + 2000)` (not at `start -
500`); the loop's final walker position `tX` is the x of the last generated
(non-anchor) vertex — the generated end x-position — and the terrain ends
with the deep anchor at exactly that `tX + 500` at the same depth; the
terrain contains exactly two vertices at depth `height + 2000` and has
non-decreasing x-coordinates throughout. -/
theorem C8_terrain_anchors (r : ℕ → ℚ) (height : ℚ) (n : ℕ)
    (hr : ∀ k, 0 ≤ r k) (hh : 0 < height) :
    (generateLevel r height n).1.head? = some (0, height + 2000)
    ∧ ((0, height - 200) :: (genLoop r height n 0 0 0 (height - 200)).vs).getLast?
        = some ((genLoop r height n 0 0 0 (height - 200)).tX,
            (genLoop r height n 0 0 0 (height - 200)).tY)
    ∧ (generateLevel r height n).1.getLast?
        = some ((genLoop r height n 0 0 0 (height - 200)).tX + 500, height + 2000)
    ∧ (generateLevel r height n).1.countP (fun v => decide (v.2 = height + 2000)) = 2
    ∧ List.Chain' (fun a b : ℚ × ℚ => a.1 ≤ b.1) (generateLevel r height n).1 := by
  have hgl := genLoop_spec r height hr n 0 0 0 (height - 200)
  set gl := genLoop r height n 0 0 0 (height - 200) with hgldef
  have hterrain : (generateLevel r height n).1 =
      (0, height + 2000) :: (0, height - 200) :: gl.vs ++ [(gl.tX + 500, height + 2000)] := rfl
  have hymax : max 200 (height + 200) = height + 200 := by
    rw [max_eq_right]
    linarith
  have hnotdeep : ∀ v ∈ gl.vs, ¬v.2 = height + 2000 := by
    intro v hv
    rcases hgl.2.2.2 v hv with h | h
    · rw [h]; intro hc; linarith
    · rw [hymax] at h
      intro hc
      linarith [h.2]
  refine ⟨?_, ?_, ?_, ?_, ?_⟩
  · rw [hterrain]; rfl
  · exact hgl.2.1
  · rw [hterrain]
    rw [show ((0, height + 2000) :: (0, height - 200) :: gl.vs
          ++ [(gl.tX + 500, height + 2000)] : List (ℚ × ℚ))
        = ((0, height + 2000) :: (0, height - 200) :: gl.vs)
          ++ [(gl.tX + 500, height + 2000)] from by simp]
    rw [List.getLast?_concat]
  · rw [hterrain]
    simp only [List.countP_cons, List.countP_append]
    rw [List.countP_eq_zero.mpr (by
      intro v hv
      simpa using hnotdeep v hv)]
    have h1 : decide ((height + 2000 : ℚ) = height + 2000) = true := by simp
    have h2 : decide ((height - 200 : ℚ) = height + 2000) = false := by
      simp only [decide_eq_false_iff_not]
      intro hc
      linarith
    simp [h1, h2]
  · rw [hterrain]
    rw [show ((0, height + 2000) :: (0, height - 200) :: gl.vs
          ++ [(gl.tX + 500, height + 2000)] : List (ℚ × ℚ))
        = ((0, height + 2000) :: (0, height - 200) :: gl.vs)
          ++ [(gl.tX + 500, height + 2000)] from by simp]
    rw [List.chain'_append]
    refine ⟨?_, List.chain'_singleton _, ?_⟩
    · rw [List.chain'_cons]
      exact ⟨le_refl 0, hgl.1⟩
    · intro x hx y hy
      rw [List.getLast?_cons_cons, hgl.2.1] at hx
      simp only [Option.mem_def, Option.some.injEq] at hx
      simp only [List.head?_cons, Option.mem_def, Option.some.injEq] at hy
      rw [← hx, ← hy]
      simp only []
      have := hgl.2.2.1
      linarith [hgl.2.2.1]

/-- C8 witness: the amended statement at the constant-zero random source with
height 1000 and one segment. -/
theorem C8_terrain_anchors_instance :
    (generateLevel (fun _ => 0) 1000 1).1.head? = some (0, 1000 + 2000)
    ∧ ((0, 1000 - 200) :: (genLoop (fun _ => 0) 1000 1 0 0 0 (1000 - 200)).vs).getLast?
        = some ((genLoop (fun _ => 0) 1000 1 0 0 0 (1000 - 200)).tX,
            (genLoop (fun _ => 0) 1000 1 0 0 0 (1000 - 200)).tY)
    ∧ (generateLevel (fun _ => 0) 1000 1).1.getLast?
        = some ((genLoop (fun _ => 0) 1000 1 0 0 0 (1000 - 200)).tX + 500, 1000 + 2000)
    ∧ (generateLevel (fun _ => 0) 1000 1).1.countP
        (fun v => decide (v.2 = 1000 + 2000)) = 2
    ∧ List.Chain' (fun a b : ℚ × ℚ => a.1 ≤ b.1) (generateLevel (fun _ => 0) 1000 1).1 :=
  C8_terrain_anchors (fun _ => 0) 1000 1 (fun _ => le_refl 0) (by norm_num)

-- --- Gameplay status lemmas ---

/-- The killer fold never leaves a WON status. -/
theorem killersFold_won (C : Consts) (parts : List Point) (killers : List Entity) :
    killers.foldl
      (fun st k =>
        parts.foldl
          (fun st p =>
            if C.hypot (p.x - k.x) (p.y - k.y) < orDefault k.r 15 + p.radius then
              dieStatus st
            else st) st) .WON = .WON := by
  apply foldl_status_won
  intro k
  apply foldl_status_won
  intro p
  by_cases h : C.hypot (p.x - k.x) (p.y - k.y) < orDefault k.r 15 + p.radius <;>
    simp [h, dieStatus]

/-- The flower-contact fold never leaves a WON status. -/
theorem winFold_won (C : Consts) (fx fy : ℚ) (parts : List Point) :
    parts.foldl
      (fun st p => if C.hypot (p.x - fx) (p.y - fy) < 35 then winStatus st else st)
      .WON = .WON := by
  apply foldl_status_won
  intro p
  by_cases h : C.hypot (p.x - fx) (p.y - fy) < 35 <;> simp [h, winStatus]

/-- Core win path of `checkGameplay`: with every apple already collected, a
PLAYING status and some body part within 35 of the flower, the evaluation
ends WON (the killer checks afterwards cannot undo it, since `die()` is a
no-op on WON). -/
theorem checkGameplay_all_collected_won (C : Consts) (s : GameState)
    (hall : ∀ a ∈ s.apples, a.collected = true)
    (hp : s.status = .PLAYING)
    (hwin : ∃ p ∈ [s.bike.rw, s.bike.fw, s.bike.body, s.bike.head],
        C.hypot (p.x - s.flower.x) (p.y - s.flower.y) < 35) :
    (checkGameplayDef C s).status = .WON := by
  have hcount := appleFold_count C [s.bike.rw, s.bike.fw, s.bike.body, s.bike.head]
    s.apples ([], 0) hall
  simp only [checkGameplayDef, hcount, zero_add, if_pos, hp]
  rw [foldl_win_of_mem
    (fun p => C.hypot (p.x - s.flower.x) (p.y - s.flower.y) < 35) _ hwin]
  exact killersFold_won C _ s.killers

/-- `checkGameplay` keeps a WON status WON. -/
theorem checkGameplay_won_fixed (C : Consts) (s : GameState)
    (hw : s.status = .WON) :
    (checkGameplayDef C s).status = .WON := by
  simp only [checkGameplayDef, hw]
  split
  · rw [winFold_won]
    exact killersFold_won C _ s.killers
  · exact killersFold_won C _ s.killers

/-- `checkGameplay` unlocks the flower whenever every apple was already
collected before the evaluation. -/
theorem checkGameplay_unlocks (C : Consts) (s : GameState)
    (hall : ∀ a ∈ s.apples, a.collected = true) :
    (checkGameplayDef C s).flower.unlocked = true := by
  have hcount := appleFold_count C [s.bike.rw, s.bike.fw, s.bike.body, s.bike.head]
    s.apples ([], 0) hall
  simp [checkGameplayDef, hcount]

-- --- Claim C9: flower unlock and win ---

/-- C9: at any gameplay evaluation at which every apple has been collected,
the flower is unlocked; if moreover the status is PLAYING and one of the four
parts rearWheel/frontWheel/body/head is within 35 units of the flower, the
status becomes WON; and once WON, any further evaluation (including further
flower contact) leaves the status WON — the transition happens exactly
once. -/
theorem C9_flower_win (C : Consts) (s : GameState)
    (hall : ∀ a ∈ s.apples, a.collected = true) :
    (checkGameplayDef C s).flower.unlocked = true
    ∧ (s.status = .PLAYING →
        (∃ p ∈ [s.bike.rw, s.bike.fw, s.bike.body, s.bike.head],
            C.hypot (p.x - s.flower.x) (p.y - s.flower.y) < 35) →
        (checkGameplayDef C s).status = .WON)
    ∧ (s.status = .WON → (checkGameplayDef C s).status = .WON) :=
  ⟨checkGameplay_unlocks C s hall,
   fun hp hwin => checkGameplay_all_collected_won C s hall hp hwin,
   fun hw => checkGameplay_won_fixed C s hw⟩

/-- A PLAYING state with its single apple collected and the flower directly
on the rear wheel. -/
def stateC9 : GameState :=
  { statePLAY with
    apples := [{ x := 50, y := 50, r := none, collected := true }]
    flower := { x := 0, y := 0, unlocked := false } }

/-- C9 witness: the concrete state is unlocked and transitions to WON. -/
theorem C9_flower_win_instance :
    (checkGameplayDef CW stateC9).flower.unlocked = true
    ∧ (checkGameplayDef CW stateC9).status = .WON :=
  ⟨(C9_flower_win CW stateC9
      (by intro a ha
          simp only [stateC9, statePLAY, stateWON, List.mem_singleton] at ha
          subst ha; rfl)).1,
   (C9_flower_win CW stateC9
      (by intro a ha
          simp only [stateC9, statePLAY, stateWON, List.mem_singleton] at ha
          subst ha; rfl)).2.1 rfl
    ⟨stateC9.bike.rw, by simp,
     by norm_num [stateC9, statePLAY, stateWON, bikeW, createPoint, CW, l1norm]⟩⟩

-- --- Claim C10: simultaneous win and kill resolves to WON ---

/-- C10: if one gameplay evaluation starts PLAYING with every apple
collected, a body part within 35 of the flower, and simultaneously a body
part in contact with a killer, the result is WON and not DEAD: the flower
block runs before the killer block, and the killer block's `die()` is a
no-op on the already-WON status. -/
theorem C10_win_over_death (C : Consts) (s : GameState)
    (hp : s.status = .PLAYING)
    (hall : ∀ a ∈ s.apples, a.collected = true)
    (hwin : ∃ p ∈ [s.bike.rw, s.bike.fw, s.bike.body, s.bike.head],
        C.hypot (p.x - s.flower.x) (p.y - s.flower.y) < 35)
    (hkill : ∃ k ∈ s.killers, ∃ p ∈ [s.bike.rw, s.bike.fw, s.bike.body, s.bike.head],
        C.hypot (p.x - k.x) (p.y - k.y) < orDefault k.r 15 + p.radius) :
    (checkGameplayDef C s).status = .WON
    ∧ (checkGameplayDef C s).status ≠ .DEAD := by
  have hw := checkGameplay_all_collected_won C s hall hp hwin
  exact ⟨hw, by rw [hw]; intro hc; cases hc⟩

/-- The C9 state with a killer sitting exactly on the rear wheel. -/
def stateC10 : GameState :=
  { statePLAY with
    apples := [{ x := 5, y := 5, r := none, collected := true }]
    flower := { x := 0, y := 0, unlocked := false }
    killers := [{ x := 0, y := 0, r := some 15, collected := false }] }

/-- C10 witness: with the flower and a killer both on the rear wheel, the
evaluation yields WON, not DEAD. -/
theorem C10_win_over_death_instance :
    (checkGameplayDef CW stateC10).status = .WON
    ∧ (checkGameplayDef CW stateC10).status ≠ .DEAD :=
  C10_win_over_death CW stateC10 rfl
    (by intro a ha
        simp only [stateC10, statePLAY, stateWON, List.mem_singleton] at ha
        subst ha; rfl)
    ⟨stateC10.bike.rw, by simp,
     by norm_num [stateC10, statePLAY, stateWON, bikeW, createPoint, CW, l1norm]⟩
    ⟨{ x := 0, y := 0, r := some 15, collected := false }, by simp [stateC10],
     stateC10.bike.rw, by simp,
     by norm_num [stateC10, statePLAY, stateWON, bikeW, createPoint, CW, l1norm, orDefault]⟩

-- --- Remaining witnesses ---

/-- C3 witness: the amended statement applied to the concrete fallen-head
state: the pass dies and still equals the full resolution loop. -/
theorem C3_fall_death_continues_instance :
    (checkCollisionsDef CW stateC3).status = .DEAD
    ∧ (checkCollisionsDef CW stateC3).bike =
        (collidePoints CW (segsOf stateC3.terrain) pointIds stateC3.bike).1 :=
  C3_fall_death_continues CW stateC3 (0, 0) [(100, 0)] rfl rfl
    (by norm_num [stateC3, createPoint])

/-- A PLAYING state whose head (and rear wheel) are below the fall line, away
from every segment's broad-phase window. -/
def stateC4w : GameState :=
  { stateC4 with
    bike := { stateC4.bike with head := createPoint 1000000 2500 0.5 12 false } }

/-- C4 witness: the amended statement applied to a concrete state with the
head below the fall line. -/
theorem C4_head_only_fall_death_instance :
    (checkCollisionsDef CW stateC4w).status = .DEAD :=
  C4_head_only_fall_death CW stateC4w (0, 0) [(10, 0)] rfl rfl
    (by norm_num [stateC4w, stateC4, createPoint])
